import Mathlib

/-!
Verification of the agentic-crew orchestration layer.

This file gives a shallow embedding, in Lean 4, of the parts of the
`python-agentic-crew` repository that carry contract semantics:

* the universal CLI command builder and process invoker
  (`agentic_crew/runners/local_cli_runner.py`: `LocalCLIConfig`,
  `LocalCLIRunner._build_command`, `LocalCLIRunner.run`);
* the package/crew discovery walk
  (`agentic_crew/core/discovery.py`: `discover_packages`, `get_crew_config`);
* the manager's parallel delegation helper
  (`agentic_crew/core/manager.py`: `ManagerAgent.delegate_parallel`).

Python conventions are modelled explicitly: optional string fields are
`Option String` and Python truthiness (`None` and `""` are falsy) is the
`optTruthy` / `strTruthy` predicates; `a or b` is `pyOr`; fallible code
returns `Except String`.  File-system and subprocess effects are modelled
by explicit function parameters (`String → Bool` for existence checks,
`List String → ProcResult` for process execution), so every definition is
executable and every behaviour is a pure function of its inputs.
-/

namespace AgenticCrew

/-- Python truthiness of a plain string: `""` is falsy, everything else truthy. -/
def strTruthy (s : String) : Bool := !s.isEmpty

/-- Python truthiness of an optional string field: `None` and `""` are falsy. -/
def optTruthy : Option String → Bool
  | none => false
  | some s => !s.isEmpty

/-- Python `a or b` on optional strings: `a` when truthy, else `b`.
Mirrors the call site `model=model or self.model` in `LocalCLIRunner.run`. -/
def pyOr (a b : Option String) : Option String :=
  if optTruthy a then a else b

/-- Split a character list at spaces, keeping (possibly empty) chunks. -/
def splitWords : List Char → List (List Char)
  | [] => [[]]
  | c :: cs =>
    let r := splitWords cs
    if c = ' ' then [] :: r
    else (c :: r.headD []) :: r.tail

/-- Model of Python `shlex.split` restricted to space-separated tokens
without quoting. Sufficient for the base-command strings this repository
uses (plain words, e.g. `"aider"`, `"ollama"`); both the code embedding and
the specification-side algorithm below use this same tokenizer, so the claims
about the builder do not depend on quoting details. -/
def shlexSplit (s : String) : List String :=
  ((splitWords s.toList).filter (fun w => !w.isEmpty)).map (fun w => String.mk w)

/-- Embedding of the `LocalCLIConfig` dataclass
(`agentic_crew/runners/local_cli_runner.py`).  Optional (`str | None`)
fields are `Option String`; defaulted fields keep the dataclass defaults. -/
structure LocalCLIConfig where
  command : String
  task_flag : String
  subcommand : Option String := none
  auth_env : List String := []
  auto_approve : Option String := none
  structured_output : Option String := none
  model_flag : Option String := none
  default_model : Option String := none
  working_dir_flag : Option String := none
  additional_flags : List String := []
  timeout : Nat := 300
  name : String := ""
  description : String := ""

/-- Embedding of `LocalCLIRunner._build_command`.  Each `let` step is one
statement of the Python method, in source order; every `if` condition is the
Python truthiness of the corresponding guard. -/
def buildCommand (p : LocalCLIConfig) (task : String) (working_dir : Option String)
    (auto_approve : Bool) (structured_output : Bool) (model : Option String) :
    List String :=
  let cmd := shlexSplit p.command
  let cmd := if optTruthy p.subcommand then cmd ++ [p.subcommand.getD ""] else cmd
  let cmd :=
    if optTruthy model then
      if optTruthy p.model_flag then cmd ++ [p.model_flag.getD "", model.getD ""]
      else cmd ++ [model.getD ""]
    else
      if optTruthy p.default_model && !(optTruthy p.model_flag) then
        cmd ++ [p.default_model.getD ""]
      else cmd
  let cmd := if strTruthy p.task_flag then cmd ++ [p.task_flag, task] else cmd ++ [task]
  let cmd := if auto_approve && optTruthy p.auto_approve then cmd ++ [p.auto_approve.getD ""] else cmd
  let cmd :=
    if structured_output && optTruthy p.structured_output then cmd ++ [p.structured_output.getD ""]
    else cmd
  let cmd :=
    if optTruthy working_dir && optTruthy p.working_dir_flag then
      cmd ++ [p.working_dir_flag.getD "", working_dir.getD ""]
    else cmd
  cmd ++ p.additional_flags

/-! Specification-side segments.  The spec (§4.2) describes the builder as a
fixed 8-step algorithm; each step contributes one self-contained token
segment.  These definitions follow the spec text, step by step. -/

/-- Step 2: the subcommand segment ("append the subcommand token if the
profile defines one"). -/
def subSeg (p : LocalCLIConfig) : List String :=
  if optTruthy p.subcommand then [p.subcommand.getD ""] else []

/-- Step 3: the model segment ("if a runtime model is given, append it — as
`[model_flag, model]` if `model_flag` is set, else as a single positional
token; if no runtime model is given but the profile has a `default_model`
and no `model_flag`, append the default model positionally"). -/
def modelSeg (p : LocalCLIConfig) (model : Option String) : List String :=
  if optTruthy model then
    if optTruthy p.model_flag then [p.model_flag.getD "", model.getD ""]
    else [model.getD ""]
  else
    if optTruthy p.default_model && !(optTruthy p.model_flag) then [p.default_model.getD ""]
    else []

/-- Step 4: the task segment ("as `[task_flag, task]` if `task_flag` is
non-empty, else as a single positional token"). -/
def taskSeg (p : LocalCLIConfig) (task : String) : List String :=
  if strTruthy p.task_flag then [p.task_flag, task] else [task]

/-- Step 5: the auto-approve segment ("if auto-approve was requested by the
caller AND the profile defines an auto-approve token"). -/
def aaSeg (p : LocalCLIConfig) (auto_approve : Bool) : List String :=
  if auto_approve && optTruthy p.auto_approve then [p.auto_approve.getD ""] else []

/-- Step 6: the structured-output segment. -/
def soSeg (p : LocalCLIConfig) (structured_output : Bool) : List String :=
  if structured_output && optTruthy p.structured_output then [p.structured_output.getD ""] else []

/-- Step 7: the working-directory segment ("if a working directory was
supplied AND the profile defines a working-directory flag, append
`[working_dir_flag, working_dir]`"). -/
def wdSeg (p : LocalCLIConfig) (working_dir : Option String) : List String :=
  if optTruthy working_dir && optTruthy p.working_dir_flag then
    [p.working_dir_flag.getD "", working_dir.getD ""]
  else []

/-- The eight specification segments, in the fixed order of §4.2:
base command, subcommand, model, task, auto-approve, structured output,
working directory, additional flags. -/
def specSegments (p : LocalCLIConfig) (task : String) (working_dir : Option String)
    (auto_approve : Bool) (structured_output : Bool) (model : Option String) :
    List (List String) :=
  [shlexSplit p.command, subSeg p, modelSeg p model, taskSeg p task,
   aaSeg p auto_approve, soSeg p structured_output, wdSeg p working_dir,
   p.additional_flags]

/-- The command prescribed by the spec's 8-step algorithm: the concatenation
of the eight segments, in order, and nothing else. -/
def specCommand (p : LocalCLIConfig) (task : String) (working_dir : Option String)
    (auto_approve : Bool) (structured_output : Bool) (model : Option String) :
    List String :=
  (specSegments p task working_dir auto_approve structured_output model).flatten

/-- The code's sequential builder produces exactly the concatenation of the
spec's eight segments. -/
lemma build_eq_spec (p : LocalCLIConfig) (task : String) (working_dir : Option String)
    (auto_approve : Bool) (structured_output : Bool) (model : Option String) :
    buildCommand p task working_dir auto_approve structured_output model =
      specCommand p task working_dir auto_approve structured_output model := by
  simp only [buildCommand, specCommand, specSegments, List.flatten,
    subSeg, modelSeg, taskSeg, aaSeg, soSeg, wdSeg, List.append_nil]
  cases h1 : optTruthy p.subcommand <;>
    cases h2 : optTruthy model <;>
      cases h3 : optTruthy p.model_flag <;>
        cases h4 : optTruthy p.default_model <;>
          cases h5 : strTruthy p.task_flag <;>
            cases h6 : auto_approve && optTruthy p.auto_approve <;>
              cases h7 : structured_output && optTruthy p.structured_output <;>
                cases h8 : optTruthy working_dir && optTruthy p.working_dir_flag <;>
                  simp [List.append_assoc]

/-! The process invoker `LocalCLIRunner.run`.  The subprocess boundary is
modelled by an explicit execution function `ex : List String → ProcResult`
(the argv list in, the child's exit code and captured streams out); the
process environment is modelled by the list of variable names present in it.
`subprocess.run(..., check=True)` raising `CalledProcessError` on a nonzero
exit code is modelled by branching on the returned exit code.  The timeout
path is not modelled (no claim concerns it). -/

/-- Exit code and captured output of a completed child process. -/
structure ProcResult where
  returncode : Int
  stdout : String
  stderr : String

/-- The missing-variable scan of `LocalCLIRunner.run`: every name in
`auth_env` that is not present in the process environment, in order. -/
def missingVars (p : LocalCLIConfig) (env : List String) : List String :=
  p.auth_env.filter (fun v => !(env.contains v))

/-- The `RuntimeError` message raised for missing environment variables. -/
def missingEnvMsg (command : String) (missing : List String) : String :=
  "Missing required environment variables for " ++ command ++ ": " ++
    String.intercalate ", " missing ++
    "\nSet these before running: " ++ String.intercalate ", " missing

/-- The `RuntimeError` message raised when the child exits nonzero,
embedding exit code, full command, captured stdout and captured stderr. -/
def cmdFailedMsg (rc : Int) (cmd : List String) (out err : String) : String :=
  "Command failed with exit code " ++ toString rc ++
    "\nCommand: " ++ String.intercalate " " cmd ++
    "\nstdout: " ++ out ++ "\nstderr: " ++ err

/-- The execution phase of `run`: invoke the child on `cmd`; exit code `0`
returns captured stdout verbatim, a nonzero exit code raises with full
diagnostic context. -/
def runResult (ex : List String → ProcResult) (cmd : List String) :
    Except String String :=
  let r := ex cmd
  if r.returncode = 0 then Except.ok r.stdout
  else Except.error (cmdFailedMsg r.returncode cmd r.stdout r.stderr)

/-- Embedding of `LocalCLIRunner.run`: check required environment variables
(failing with one error naming all missing ones), then build the command with
`model or self.model`, then execute.  `selfModel` is the constructor-supplied
`self.model`. -/
def run (p : LocalCLIConfig) (selfModel : Option String) (env : List String)
    (ex : List String → ProcResult) (task : String) (working_dir : Option String)
    (auto_approve : Bool) (structured_output : Bool) (model : Option String) :
    Except String String :=
  let missing := missingVars p env
  if !missing.isEmpty then
    Except.error (missingEnvMsg p.command missing)
  else
    runResult ex
      (buildCommand p task working_dir auto_approve structured_output (pyOr model selfModel))

/-! Discovery.  The configuration-directory priority list and the framework
tag are modelled from the spec (§4.4): the packaged discovery module of the
`agentic-crew` distribution — the one exercised by `tests/test_discovery.py`
and imported by its `main.py` and `manager.py` — is not part of the source
tree (only a stale flat-layout variant without the framework-agnostic
directory is).  The crew lookup and its not-found error are translated from
the `get_crew_config` present in the flat-layout copy
(`src/agentic_crew/core/discovery.py`), which agrees with the spec on that
path.  The file system is abstracted: a package directory is represented by
the predicate telling which configuration-directory names under it contain a
readable manifest, and file reads by `String → Option` functions. -/

/-- Modelled from the spec: configuration-directory names in fixed priority
order, the framework-agnostic `.crew` first, then the per-framework
directories. -/
def FRAMEWORK_DIRS : List String := [".crew", ".crewai", ".langgraph", ".strands"]

/-- Modelled from the spec: mapping from framework-specific directory name to
framework name; the framework-agnostic `.crew` is absent (it tags none). -/
def DIR_TO_FRAMEWORK : List (String × String) :=
  [(".crewai", "crewai"), (".langgraph", "langgraph"), (".strands", "strands")]

/-- Modelled from the spec: the framework implied by a configuration
directory's name (`.crewai ↦ crewai`, …); the framework-agnostic directory
implies none. -/
def getFrameworkFromConfigDir (dirName : String) : Option String :=
  (DIR_TO_FRAMEWORK.find? (fun q => q.1 == dirName)).map (fun q => q.2)

/-- For one candidate package directory, the chosen configuration directory:
the first name in the priority order whose directory contains a readable
manifest.  `hasManifest d` abstracts
`(pkg_dir / d).exists() and (pkg_dir / d / "manifest.yaml").exists()`. -/
def resolveConfigDir (hasManifest : String → Bool) : Option String :=
  FRAMEWORK_DIRS.find? hasManifest

/-- Modelled from the spec: `discover_packages` over the immediate package
directories, each given by its name and its manifest predicate; packages with
no configuration directory are dropped, the rest map to the first
(highest-priority) directory found. -/
def discoverPackages (pkgs : List (String × (String → Bool))) :
    List (String × String) :=
  pkgs.filterMap (fun q => (resolveConfigDir q.2).map (fun d => (q.1, d)))

/-- A value of a crew-entry mapping in the manifest: a string field
(description, agents path, tasks path) or a list of strings (knowledge). -/
inductive CrewVal where
  | str : String → CrewVal
  | strs : List String → CrewVal
deriving DecidableEq

/-- A crew entry as the raw YAML mapping it parses to; `[]` models the empty
dict, which is falsy in Python. -/
abbrev CrewDict := List (String × CrewVal)

/-- The parsed manifest, reduced to its crew table (`crews` mapping). -/
structure Manifest where
  crews : List (String × CrewDict)

/-- Association-list lookup modelling Python `dict.get`. -/
def dictGet (d : CrewDict) (k : String) : Option CrewVal :=
  (d.find? (fun q => q.1 == k)).map (fun q => q.2)

/-- Coerce an optional crew-entry value to a string field. -/
def asStr : Option CrewVal → Option String
  | some (CrewVal.str s) => some s
  | _ => none

/-- Coerce an optional crew-entry value to a list field, defaulting to `[]`
(Python `crew_config.get("knowledge", [])`). -/
def asStrs : Option CrewVal → List String
  | some (CrewVal.strs l) => l
  | _ => []

/-- The single-quote character, kept out of string literals. -/
def sq : String := String.singleton (Char.ofNat 39)

/-- Python `repr` of a list of strings, as interpolated into error messages
(e.g. a two-element table prints as a bracketed, comma-separated list of
single-quoted names). -/
def pyStrListRepr (xs : List String) : String :=
  "[" ++ String.intercalate ", " (xs.map (fun s => sq ++ s ++ sq)) ++ "]"

/-- The `ValueError` message of `get_crew_config` for an unknown crew,
listing the available crew names. -/
def crewNotFoundMsg (crewName : String) (available : List String) : String :=
  "Crew " ++ sq ++ crewName ++ sq ++ " not found. Available: " ++
    pyStrListRepr available

/-- The composed Crew Configuration returned by `get_crew_config`. -/
structure CrewConfig where
  name : String
  description : String
  agents : List (String × String)
  tasks : List (String × String)
  knowledge_paths : List String
  required_framework : Option String

/-- Embedding of `get_crew_config`.  The crew lookup, the falsiness test on
the entry, and the not-found error are translated from the source; the
`required_framework` tag is modelled from the spec ("tagging it with the
framework implied by the configuration-directory name").  `dirName` is the
configuration directory's name (e.g. `".crewai"`); `readYaml` abstracts
reading-and-parsing an agents/tasks file, returning `none` for a missing file
(the code treats a missing file as an empty mapping); `pathExists` abstracts
the knowledge-path existence check.  A crew entry without `agents`/`tasks`
fields would make the Python code raise a `KeyError`; that is the final
error branch. -/
def getCrewConfig (dirName : String) (manifest : Manifest)
    (readYaml : String → Option (List (String × String)))
    (pathExists : String → Bool) (crewName : String) :
    Except String CrewConfig :=
  let crews := manifest.crews
  match (crews.find? (fun q => q.1 == crewName)).map (fun q => q.2) with
  | none => Except.error (crewNotFoundMsg crewName (crews.map (fun q => q.1)))
  | some d =>
    if d.isEmpty then Except.error (crewNotFoundMsg crewName (crews.map (fun q => q.1)))
    else
      match asStr (dictGet d "agents"), asStr (dictGet d "tasks") with
      | some ap, some tp =>
        Except.ok
          { name := crewName
            description := (asStr (dictGet d "description")).getD ""
            agents := (readYaml (dirName ++ "/" ++ ap)).getD []
            tasks := (readYaml (dirName ++ "/" ++ tp)).getD []
            knowledge_paths :=
              ((asStrs (dictGet d "knowledge")).map (fun kp => dirName ++ "/" ++ kp)).filter
                pathExists
            required_framework := getFrameworkFromConfigDir dirName }
      | _, _ => Except.error ("KeyError in crew entry " ++ sq ++ crewName ++ sq)

/-! The manager's parallel fan-out (`ManagerAgent.delegate_parallel`).
`delegate_parallel` creates one `delegate_async` coroutine per delegation,
in input order, and awaits `asyncio.gather(*tasks)`; each coroutine offloads
the synchronous `self.delegate` to a worker thread.  Concurrency is modelled
by an explicit completion schedule: `gather` keeps one result slot per
submitted task, each offloaded call fills its own slot whenever it completes,
and `gather` returns the slots in submission order once all are filled.  The
underlying synchronous delegation is abstracted as a function of the
delegation pair (its implementation dispatches through `run_crew_auto`,
which lives outside this layer). -/

/-- One result slot per task; a completion at index `i` stores that task's
result in slot `i`, whatever the completion order. -/
def runSchedule {α : Type} (compute : Nat → α) (n : Nat) (schedule : List Nat) :
    List (Option α) :=
  schedule.foldl (fun slots i => slots.set i (some (compute i))) (List.replicate n none)

/-- Embedding of `ManagerAgent.delegate_parallel` under a completion
schedule: submit one task per delegation in input order, let them complete in
`schedule` order, and return the collected slots once every slot is filled
(`asyncio.gather` resolves only when all awaited tasks have). -/
def delegateParallel (delegate : String → String → String)
    (delegations : List (String × String)) (schedule : List Nat) :
    Option (List String) :=
  let compute : Nat → String := fun i =>
    match delegations[i]? with
    | some q => delegate q.1 q.2
    | none => ""
  let slots := runSchedule compute delegations.length schedule
  if slots.all (fun o => o.isSome) then some (slots.map (fun o => o.getD "")) else none

/-! ## Claim theorems -/

/-- Claim C1: for every profile and every combination of runtime parameters
(task, working_dir, auto_approve, structured_output, model), the command
built by `LocalCLIRunner._build_command` is exactly the token list produced
by the fixed 8-step algorithm — tokenized base command, then subcommand (if
defined), then the model tokens, then the task tokens, then the auto-approve
token (only if requested and defined), then the structured-output token
(only if requested and defined), then the working-directory pair (only if
both supplied and defined), then the profile's additional flags in declared
order — and nothing else. -/
theorem buildCommand_is_eight_step_algorithm (p : LocalCLIConfig) (task : String)
    (working_dir : Option String) (auto_approve structured_output : Bool)
    (model : Option String) :
    buildCommand p task working_dir auto_approve structured_output model =
      specCommand p task working_dir auto_approve structured_output model :=
  build_eq_spec p task working_dir auto_approve structured_output model

/-- The token segments following the model segment: task, auto-approve,
structured output, working directory, additional flags. -/
def tailSegs (p : LocalCLIConfig) (task : String) (working_dir : Option String)
    (auto_approve structured_output : Bool) : List String :=
  taskSeg p task ++ aaSeg p auto_approve ++ soSeg p structured_output ++
    wdSeg p working_dir ++ p.additional_flags

/-- The tokens preceding the model segment: tokenized base command followed
by the subcommand segment. -/
def headSegs (p : LocalCLIConfig) : List String :=
  shlexSplit p.command ++ subSeg p

/-- The built command is head segments, then the model segment, then tail
segments. -/
lemma build_decomp (p : LocalCLIConfig) (task : String) (working_dir : Option String)
    (auto_approve structured_output : Bool) (model : Option String) :
    buildCommand p task working_dir auto_approve structured_output model =
      headSegs p ++ modelSeg p model ++ tailSegs p task working_dir auto_approve structured_output := by
  rw [build_eq_spec]
  simp [specCommand, specSegments, headSegs, tailSegs, List.append_assoc]

/-- Claim C4: model resolution in the command builder.  A truthy runtime
model with a model flag yields the `[model_flag, model]` pair; a truthy
runtime model without a model flag is appended as a single positional token
immediately after the command/subcommand; with no (truthy) runtime model, a
profile with a model flag never auto-appends its default model, while a
profile without a model flag but with a default model appends the default
positionally. -/
theorem buildCommand_model_resolution (p : LocalCLIConfig) (task : String)
    (working_dir : Option String) (auto_approve structured_output : Bool) :
    (∀ m : String, strTruthy m = true → optTruthy p.model_flag = true →
      buildCommand p task working_dir auto_approve structured_output (some m) =
        headSegs p ++ [p.model_flag.getD "", m] ++
          tailSegs p task working_dir auto_approve structured_output) ∧
    (∀ m : String, strTruthy m = true → optTruthy p.model_flag = false →
      buildCommand p task working_dir auto_approve structured_output (some m) =
        headSegs p ++ [m] ++ tailSegs p task working_dir auto_approve structured_output) ∧
    (∀ mo : Option String, optTruthy mo = false → optTruthy p.model_flag = true →
      buildCommand p task working_dir auto_approve structured_output mo =
        headSegs p ++ tailSegs p task working_dir auto_approve structured_output) ∧
    (∀ mo : Option String, optTruthy mo = false → optTruthy p.model_flag = false →
      optTruthy p.default_model = true →
      buildCommand p task working_dir auto_approve structured_output mo =
        headSegs p ++ [p.default_model.getD ""] ++
          tailSegs p task working_dir auto_approve structured_output) := by
  refine ⟨?_, ?_, ?_, ?_⟩
  · intro m h1 h2
    rw [build_decomp]
    have hm : optTruthy (some m) = true := h1
    simp [modelSeg, hm, h2]
  · intro m h1 h2
    rw [build_decomp]
    have hm : optTruthy (some m) = true := h1
    simp [modelSeg, hm, h2]
  · intro mo h1 h2
    rw [build_decomp]
    simp [modelSeg, h1, h2]
  · intro mo h1 h2 h3
    rw [build_decomp]
    simp [modelSeg, h1, h2, h3]

/-- A flag-based profile (aider-like: model flag, task flag). -/
def profFlag : LocalCLIConfig :=
  { command := "aider", task_flag := "--message", model_flag := some "--model" }

/-- A positional profile (ollama-like: subcommand, positional task, default
model, no model flag). -/
def profPos : LocalCLIConfig :=
  { command := "ollama", subcommand := some "run", task_flag := "",
    default_model := some "codellama" }

/-- Witness for C4: with a model flag, a runtime model yields the
`[--model, gpt-4o]` pair; without one, the default model is appended
positionally right after the subcommand when no runtime model is given. -/
theorem buildCommand_model_resolution_witness :
    buildCommand profFlag "fix" none false false (some "gpt-4o") =
      ["aider", "--model", "gpt-4o", "--message", "fix"] ∧
    buildCommand profPos "fix" none false false none =
      ["ollama", "run", "codellama", "fix"] := by
  constructor
  · rw [(buildCommand_model_resolution profFlag "fix" none false false).1 "gpt-4o" rfl rfl]
    decide
  · rw [(buildCommand_model_resolution profPos "fix" none false false).2.2.2 none rfl rfl rfl]
    decide

/-- Claim C2: if any required environment variable is missing, `run` fails
with a single error naming every missing variable (the full filtered list —
never a partial check), and the result does not depend on the process layer
at all (no subprocess is spawned); when none are missing, the environment
check raises nothing and `run` proceeds to the execution phase. -/
theorem run_env_precondition (p : LocalCLIConfig) (selfModel : Option String)
    (env : List String) (task : String) (working_dir : Option String)
    (auto_approve structured_output : Bool) (model : Option String) :
    (missingVars p env ≠ [] →
      ∀ ex ex' : List String → ProcResult,
        run p selfModel env ex task working_dir auto_approve structured_output model =
          Except.error (missingEnvMsg p.command (missingVars p env)) ∧
        run p selfModel env ex task working_dir auto_approve structured_output model =
          run p selfModel env ex' task working_dir auto_approve structured_output model) ∧
    (missingVars p env = [] →
      ∀ ex : List String → ProcResult,
        run p selfModel env ex task working_dir auto_approve structured_output model =
          runResult ex
            (buildCommand p task working_dir auto_approve structured_output
              (pyOr model selfModel))) := by
  constructor
  · intro hne ex ex'
    have hb : (missingVars p env).isEmpty = false := by
      cases hmv : missingVars p env with
      | nil => exact absurd hmv hne
      | cons a l => rfl
    constructor <;> simp [run, hb]
  · intro hmv ex
    simp [run, hmv]

/-- A profile requiring one authentication variable, used as witness input. -/
def profAuth : LocalCLIConfig :=
  { command := "test-tool", task_flag := "--task", auth_env := ["TEST_API_KEY"] }

/-- Witness for C2: with `TEST_API_KEY` unset, `run` fails naming it and the
result is the same for two different process layers; with it set, `run`
reaches the execution phase. -/
theorem run_env_precondition_witness :
    (run profAuth none [] (fun _ => ⟨0, "ok", ""⟩) "t" none true false none =
        Except.error (missingEnvMsg "test-tool" ["TEST_API_KEY"]) ∧
      run profAuth none [] (fun _ => ⟨0, "ok", ""⟩) "t" none true false none =
        run profAuth none [] (fun _ => ⟨7, "x", "y"⟩) "t" none true false none) ∧
    run profAuth none ["TEST_API_KEY"] (fun _ => ⟨0, "ok", ""⟩) "t" none true false none =
      runResult (fun _ => ⟨0, "ok", ""⟩)
        (buildCommand profAuth "t" none true false none) := by
  constructor
  · have h := (run_env_precondition profAuth none [] "t" none true false none).1
      (by decide) (fun _ => ⟨0, "ok", ""⟩) (fun _ => ⟨7, "x", "y"⟩)
    exact ⟨h.1, h.2⟩
  · have h := (run_env_precondition profAuth none ["TEST_API_KEY"] "t" none true false
      none).2 (by decide) (fun _ => ⟨0, "ok", ""⟩)
    simpa [pyOr] using h

/-- Claim C3: with the environment check satisfied, `run` returns the child's
captured stdout verbatim if and only if the child exits with code 0; on any
nonzero exit code it fails with an error embedding the exit code, the full
command, the captured stdout and the captured stderr. -/
theorem run_exit_code_contract (p : LocalCLIConfig) (selfModel : Option String)
    (env : List String) (ex : List String → ProcResult) (task : String)
    (working_dir : Option String) (auto_approve structured_output : Bool)
    (model : Option String) (h : missingVars p env = []) :
    (∀ s : String,
      run p selfModel env ex task working_dir auto_approve structured_output model =
          Except.ok s ↔
        ((ex (buildCommand p task working_dir auto_approve structured_output
            (pyOr model selfModel))).returncode = 0 ∧
          s = (ex (buildCommand p task working_dir auto_approve structured_output
            (pyOr model selfModel))).stdout)) ∧
    ((ex (buildCommand p task working_dir auto_approve structured_output
        (pyOr model selfModel))).returncode ≠ 0 →
      run p selfModel env ex task working_dir auto_approve structured_output model =
        Except.error
          (cmdFailedMsg
            (ex (buildCommand p task working_dir auto_approve structured_output
              (pyOr model selfModel))).returncode
            (buildCommand p task working_dir auto_approve structured_output
              (pyOr model selfModel))
            (ex (buildCommand p task working_dir auto_approve structured_output
              (pyOr model selfModel))).stdout
            (ex (buildCommand p task working_dir auto_approve structured_output
              (pyOr model selfModel))).stderr)) := by
  constructor
  · intro s
    by_cases hrc :
        (ex (buildCommand p task working_dir auto_approve structured_output
          (pyOr model selfModel))).returncode = 0
    · simp [run, runResult, h, hrc, eq_comm]
    · simp [run, runResult, h, hrc]
  · intro hrc
    simp [run, runResult, h, hrc]

/-- Witness for C3: exit code 1 with stdout `""` and stderr
`"Error occurred"` yields a failure whose message contains `"exit code 1"`
and `"Error occurred"`; exit code 0 returns stdout verbatim. -/
theorem run_exit_code_contract_witness :
    (run profAuth none ["TEST_API_KEY"] (fun _ => ⟨1, "", "Error occurred"⟩) "t" none
        true false none =
      Except.error
        (cmdFailedMsg 1 ["test-tool", "--task", "t"] "" "Error occurred")) ∧
    (∃ a b : String,
      cmdFailedMsg 1 ["test-tool", "--task", "t"] "" "Error occurred" =
        a ++ "exit code 1" ++ b) ∧
    (∃ a b : String,
      cmdFailedMsg 1 ["test-tool", "--task", "t"] "" "Error occurred" =
        a ++ "Error occurred" ++ b) ∧
    run profAuth none ["TEST_API_KEY"] (fun _ => ⟨0, "all done\n", ""⟩) "t" none
        true false none =
      Except.ok "all done\n" := by
  refine ⟨?_, ?_, ?_, ?_⟩
  · have h := (run_exit_code_contract profAuth none ["TEST_API_KEY"]
      (fun _ => ⟨1, "", "Error occurred"⟩) "t" none true false none (by decide)).2
      (by decide)
    rw [h]
    congr 1
  · exact ⟨"Command failed with ",
      "\nCommand: test-tool --task t\nstdout: \nstderr: Error occurred", by decide⟩
  · exact ⟨"Command failed with exit code 1\nCommand: test-tool --task t\nstdout: \nstderr: ",
      "", by decide⟩
  · have h := ((run_exit_code_contract profAuth none ["TEST_API_KEY"]
      (fun _ => ⟨0, "all done\n", ""⟩) "t" none true false none (by decide)).1
      "all done\n").mpr ⟨by decide, by decide⟩
    exact h

/-- Claim C10: the run-time model argument overrides the constructor model
exactly when it is truthy; a `None` or empty-string run-time model falls back
to the constructor-supplied model (so an empty string does not suppress it). -/
theorem run_model_override (p : LocalCLIConfig) (selfModel : Option String)
    (env : List String) (ex : List String → ProcResult) (task : String)
    (working_dir : Option String) (auto_approve structured_output : Bool)
    (h : missingVars p env = []) :
    (∀ model : Option String, optTruthy model = true →
      run p selfModel env ex task working_dir auto_approve structured_output model =
        runResult ex
          (buildCommand p task working_dir auto_approve structured_output model)) ∧
    (∀ model : Option String, model = none ∨ model = some "" →
      run p selfModel env ex task working_dir auto_approve structured_output model =
        runResult ex
          (buildCommand p task working_dir auto_approve structured_output selfModel)) := by
  constructor
  · intro model hm
    simp [run, h, pyOr, hm]
  · intro model hm
    have hfalse : optTruthy model = false := by
      rcases hm with hm | hm <;> subst hm <;> rfl
    simp [run, h, pyOr, hfalse]

/-- Witness for C10: with constructor model `sonnet`, a truthy run-time model
`haiku` wins, while run-time `None` and `""` both fall back to `sonnet`. -/
theorem run_model_override_witness :
    run profFlag (some "sonnet") [] (fun _ => ⟨0, "ok", ""⟩) "t" none false false
        (some "haiku") =
      runResult (fun _ => ⟨0, "ok", ""⟩)
        (buildCommand profFlag "t" none false false (some "haiku")) ∧
    run profFlag (some "sonnet") [] (fun _ => ⟨0, "ok", ""⟩) "t" none false false
        (some "") =
      runResult (fun _ => ⟨0, "ok", ""⟩)
        (buildCommand profFlag "t" none false false (some "sonnet")) ∧
    run profFlag (some "sonnet") [] (fun _ => ⟨0, "ok", ""⟩) "t" none false false none =
      runResult (fun _ => ⟨0, "ok", ""⟩)
        (buildCommand profFlag "t" none false false (some "sonnet")) := by
  refine ⟨?_, ?_, ?_⟩
  · exact (run_model_override profFlag (some "sonnet") [] (fun _ => ⟨0, "ok", ""⟩) "t"
      none false false rfl).1 (some "haiku") rfl
  · exact (run_model_override profFlag (some "sonnet") [] (fun _ => ⟨0, "ok", ""⟩) "t"
      none false false rfl).2 (some "") (Or.inr rfl)
  · exact (run_model_override profFlag (some "sonnet") [] (fun _ => ⟨0, "ok", ""⟩) "t"
      none false false rfl).2 none (Or.inl rfl)

/-- A degenerate profile whose auto-approve and structured-output tokens are
the same string, used to refute the unconditional round-trip claim. -/
def profDup : LocalCLIConfig :=
  { command := "tool", task_flag := "--task",
    auto_approve := some "--x", structured_output := some "--x" }

/-- Counterexample for C8: the unconditional round-trip claim — that for
every profile and every runtime parameters each specified flag/value token
appears exactly once in the built command — is false.  In `profDup` the
auto-approve and structured-output tokens are both `"--x"`, and with both
modes requested the built command contains `"--x"` twice, so no
token-by-token re-parse can recover each specified flag exactly once. -/
theorem roundTrip_counterexample :
    ¬ (∀ (p : LocalCLIConfig) (task : String) (working_dir : Option String)
        (auto_approve structured_output : Bool) (model : Option String)
        (t : String),
          t ∈ specCommand p task working_dir auto_approve structured_output model →
          (buildCommand p task working_dir auto_approve structured_output model).count t
            = 1) := by
  intro hcl
  have h := hcl profDup "t" none true true none "--x" (by decide)
  have h2 : (buildCommand profDup "t" none true true none).count "--x" = 2 := by decide
  rw [h2] at h
  exact absurd h (by decide)

/-- Claim C8 (amended): round-trip without duplication or omission holds for
non-degenerate instances: whenever the specified tokens (base command,
subcommand, model, task, mode flags, working directory, additional flags) are
pairwise distinct, the built command is exactly their in-order concatenation
— so a token-by-token re-parse recovers every specified flag and value, each
appearing exactly once (no duplication) and none omitted (the command
contains nothing beyond them). -/
theorem roundTrip_no_dup_no_omission (p : LocalCLIConfig) (task : String)
    (working_dir : Option String) (auto_approve structured_output : Bool)
    (model : Option String)
    (hnd : (specCommand p task working_dir auto_approve structured_output model).Nodup) :
    buildCommand p task working_dir auto_approve structured_output model =
      specCommand p task working_dir auto_approve structured_output model ∧
    (∀ t ∈ specCommand p task working_dir auto_approve structured_output model,
      (buildCommand p task working_dir auto_approve structured_output model).count t
        = 1) ∧
    (∀ t, t ∉ specCommand p task working_dir auto_approve structured_output model →
      (buildCommand p task working_dir auto_approve structured_output model).count t
        = 0) := by
  refine ⟨build_eq_spec p task working_dir auto_approve structured_output model, ?_, ?_⟩
  · intro t ht
    rw [build_eq_spec]
    exact List.count_eq_one_of_mem hnd ht
  · intro t ht
    rw [build_eq_spec]
    exact List.count_eq_zero.mpr ht

/-- A fully populated, non-degenerate profile for the round-trip witness. -/
def profFull : LocalCLIConfig :=
  { command := "aider", task_flag := "--message",
    auto_approve := some "--yes-always", structured_output := some "--json",
    model_flag := some "--model", working_dir_flag := some "--cwd",
    additional_flags := ["--no-auto-commits"] }

/-- Witness for the amended C8 at a fully populated profile: all eight
segments present, every specified token occurs exactly once, and an
unspecified token does not occur. -/
theorem roundTrip_no_dup_no_omission_witness :
    buildCommand profFull "fix" (some "/tmp") true true (some "gpt-4o") =
      specCommand profFull "fix" (some "/tmp") true true (some "gpt-4o") ∧
    (buildCommand profFull "fix" (some "/tmp") true true (some "gpt-4o")).count
        "--model" = 1 ∧
    (buildCommand profFull "fix" (some "/tmp") true true (some "gpt-4o")).count
        "--absent" = 0 := by
  have h := roundTrip_no_dup_no_omission profFull "fix" (some "/tmp") true true
    (some "gpt-4o") (by decide)
  exact ⟨h.1, h.2.1 "--model" (by decide), h.2.2 "--absent" (by decide)⟩

/-- Claim C5: for every package directory holding both a framework-agnostic
configuration directory (`.crew`) and a framework-specific one (`.crewai`),
each with a readable manifest, discovery resolves the package to the
framework-agnostic directory: names are checked in a fixed priority order
with the framework-agnostic directory first, and the first directory with a
manifest wins. -/
theorem discovery_prefers_agnostic_dir (pkgs : List (String × (String → Bool)))
    (pkgName : String) (hasManifest : String → Bool)
    (hmem : (pkgName, hasManifest) ∈ pkgs)
    (hcrew : hasManifest ".crew" = true)
    (_hcrewai : hasManifest ".crewai" = true) :
    resolveConfigDir hasManifest = some ".crew" ∧
    (pkgName, ".crew") ∈ discoverPackages pkgs ∧
    FRAMEWORK_DIRS.head? = some ".crew" := by
  have hres : resolveConfigDir hasManifest = some ".crew" := by
    simp [resolveConfigDir, FRAMEWORK_DIRS, List.find?, hcrew]
  refine ⟨hres, ?_, rfl⟩
  exact List.mem_filterMap.mpr ⟨(pkgName, hasManifest), hmem, by simp [hres]⟩

/-- A package directory holding both `.crew` and `.crewai`, each with a
manifest. -/
def hybridHasManifest : String → Bool := fun d => d == ".crew" || d == ".crewai"

/-- Witness for C5: a package with both `.crew` and `.crewai` resolves to
`.crew`. -/
theorem discovery_prefers_agnostic_dir_witness :
    resolveConfigDir hybridHasManifest = some ".crew" ∧
    ("hybrid", ".crew") ∈ discoverPackages [("hybrid", hybridHasManifest)] := by
  have h := discovery_prefers_agnostic_dir [("hybrid", hybridHasManifest)] "hybrid"
    hybridHasManifest (List.mem_singleton.mpr rfl) rfl rfl
  exact ⟨h.1, h.2.1⟩

/-- Claim C6: for every configuration directory and every crew name present
in the manifest's crew table (as a well-formed entry), `get_crew_config`
returns a configuration tagged with the framework implied by the
configuration directory's name — `.crewai` implies the `crewai` tag, the
framework-agnostic `.crew` implies none. -/
theorem getCrewConfig_framework_tag (dirName : String) (manifest : Manifest)
    (readYaml : String → Option (List (String × String)))
    (pathExists : String → Bool) (crewName : String) (d : CrewDict)
    (ap tp : String)
    (hfind : (manifest.crews.find? (fun q => q.1 == crewName)).map (fun q => q.2)
      = some d)
    (hag : asStr (dictGet d "agents") = some ap)
    (htk : asStr (dictGet d "tasks") = some tp) :
    (∃ cfg : CrewConfig,
      getCrewConfig dirName manifest readYaml pathExists crewName = Except.ok cfg ∧
      cfg.required_framework = getFrameworkFromConfigDir dirName) ∧
    getFrameworkFromConfigDir ".crewai" = some "crewai" ∧
    getFrameworkFromConfigDir ".crew" = none ∧
    getFrameworkFromConfigDir ".langgraph" = some "langgraph" ∧
    getFrameworkFromConfigDir ".strands" = some "strands" := by
  have hne : d.isEmpty = false := by
    cases d with
    | nil => simp [dictGet, asStr] at hag
    | cons a l => rfl
  have hok : ∃ cfg : CrewConfig,
      getCrewConfig dirName manifest readYaml pathExists crewName = Except.ok cfg ∧
      cfg.required_framework = getFrameworkFromConfigDir dirName := by
    simp only [getCrewConfig, hfind, hne, hag, htk, Bool.false_eq_true, if_false]
    exact ⟨_, rfl, rfl⟩
  exact ⟨hok, rfl, rfl, rfl, rfl⟩

/-- A manifest with one complete crew entry, for witnesses. -/
def manifestW : Manifest :=
  ⟨[("test_crew",
      [("agents", CrewVal.str "agents.yaml"), ("tasks", CrewVal.str "tasks.yaml")])]⟩

/-- Witness for C6: under a `.crewai` directory the returned configuration
carries the `crewai` tag; under `.crew` it carries none. -/
theorem getCrewConfig_framework_tag_witness :
    (∃ cfg : CrewConfig,
      getCrewConfig ".crewai" manifestW (fun _ => none) (fun _ => false) "test_crew"
        = Except.ok cfg ∧ cfg.required_framework = some "crewai") ∧
    (∃ cfg : CrewConfig,
      getCrewConfig ".crew" manifestW (fun _ => none) (fun _ => false) "test_crew"
        = Except.ok cfg ∧ cfg.required_framework = none) := by
  constructor
  · obtain ⟨⟨cfg, hok, hfr⟩, htag, -⟩ := getCrewConfig_framework_tag ".crewai"
      manifestW (fun _ => none) (fun _ => false) "test_crew" _ "agents.yaml"
      "tasks.yaml" rfl rfl rfl
    exact ⟨cfg, hok, hfr.trans htag⟩
  · obtain ⟨⟨cfg, hok, hfr⟩, -, htag, -⟩ := getCrewConfig_framework_tag ".crew"
      manifestW (fun _ => none) (fun _ => false) "test_crew" _ "agents.yaml"
      "tasks.yaml" rfl rfl rfl
    exact ⟨cfg, hok, hfr.trans htag⟩

/-- Claim C7: for every crew name absent from the manifest's crew table, or
mapped to an empty entry, `get_crew_config` fails with a not-found error
whose message lists the available crew names, and never returns a
configuration. -/
theorem getCrewConfig_unknown_crew (dirName : String) (manifest : Manifest)
    (readYaml : String → Option (List (String × String)))
    (pathExists : String → Bool) (crewName : String)
    (h : (manifest.crews.find? (fun q => q.1 == crewName)).map (fun q => q.2) = none ∨
      (manifest.crews.find? (fun q => q.1 == crewName)).map (fun q => q.2) = some []) :
    getCrewConfig dirName manifest readYaml pathExists crewName =
      Except.error (crewNotFoundMsg crewName (manifest.crews.map (fun q => q.1))) ∧
    ∀ cfg : CrewConfig,
      getCrewConfig dirName manifest readYaml pathExists crewName ≠ Except.ok cfg := by
  have herr : getCrewConfig dirName manifest readYaml pathExists crewName =
      Except.error (crewNotFoundMsg crewName (manifest.crews.map (fun q => q.1))) := by
    rcases h with h | h <;> simp [getCrewConfig, h]
  exact ⟨herr, fun cfg hok => by rw [herr] at hok; exact Except.noConfusion hok⟩

/-- Witness for C7: looking up a crew name missing from the table, and one
mapped to an empty entry, both yield the not-found error listing the
available crews. -/
theorem getCrewConfig_unknown_crew_witness :
    getCrewConfig ".crewai" manifestW (fun _ => none) (fun _ => false) "missing" =
      Except.error (crewNotFoundMsg "missing" ["test_crew"]) ∧
    getCrewConfig ".crewai" ⟨[("empty_crew", [])]⟩ (fun _ => none) (fun _ => false)
        "empty_crew" =
      Except.error (crewNotFoundMsg "empty_crew" ["empty_crew"]) := by
  constructor
  · exact (getCrewConfig_unknown_crew ".crewai" manifestW (fun _ => none)
      (fun _ => false) "missing" (Or.inl rfl)).1
  · exact (getCrewConfig_unknown_crew ".crewai" ⟨[("empty_crew", [])]⟩ (fun _ => none)
      (fun _ => false) "empty_crew" (Or.inr rfl)).1

/-- Folding completions over slots preserves the number of slots. -/
lemma foldl_set_length {α : Type} (compute : Nat → α) (schedule : List Nat)
    (init : List (Option α)) :
    (schedule.foldl (fun slots i => slots.set i (some (compute i))) init).length
      = init.length := by
  induction schedule generalizing init with
  | nil => rfl
  | cons j tl ih => simp [List.foldl, ih, List.length_set]

/-- A slot whose index never completes in the schedule is left unchanged. -/
lemma foldl_set_getElem_not_mem {α : Type} (compute : Nat → α) (schedule : List Nat)
    (init : List (Option α)) (i : Nat) (hni : i ∉ schedule) :
    (schedule.foldl (fun slots k => slots.set k (some (compute k))) init)[i]?
      = init[i]? := by
  induction schedule generalizing init with
  | nil => rfl
  | cons j tl ih =>
    simp only [List.foldl_cons]
    rw [ih (init.set j (some (compute j))) (fun h => hni (List.mem_cons_of_mem j h))]
    exact List.getElem?_set_ne (fun h => hni (List.mem_cons.mpr (Or.inl h.symm)))

/-- Once an index completes somewhere in the schedule, its slot holds that
task's own result, whatever the completion order. -/
lemma foldl_set_getElem_mem {α : Type} (compute : Nat → α) (schedule : List Nat)
    (init : List (Option α)) (i : Nat) (hi : i < init.length) (hmem : i ∈ schedule) :
    (schedule.foldl (fun slots k => slots.set k (some (compute k))) init)[i]?
      = some (some (compute i)) := by
  induction schedule generalizing init with
  | nil => cases hmem
  | cons j tl ih =>
    simp only [List.foldl_cons]
    by_cases htl : i ∈ tl
    · exact ih (init.set j (some (compute j))) (by simpa [List.length_set] using hi) htl
    · have hij : i = j := by
        rcases List.mem_cons.mp hmem with h | h
        · exact h
        · exact absurd h htl
      subst hij
      rw [foldl_set_getElem_not_mem compute tl _ i htl]
      exact List.getElem?_set_eq_of_lt (some (compute i)) hi

/-- Claim C9: for every list of N delegations and every completion schedule
covering all of them, `delegate_parallel` returns the N results in submission
order — the i-th element is the result of the i-th submitted delegation,
regardless of the order in which the offloaded calls complete. -/
theorem delegateParallel_preserves_order (delegate : String → String → String)
    (delegations : List (String × String)) (schedule : List Nat)
    (hcover : ∀ i, i < delegations.length → i ∈ schedule) :
    delegateParallel delegate delegations schedule =
      some (delegations.map (fun q => delegate q.1 q.2)) := by
  unfold delegateParallel runSchedule
  set compute : Nat → String := fun i =>
    match delegations[i]? with
    | some q => delegate q.1 q.2
    | none => "" with hcompute
  set slots := schedule.foldl (fun slots i => slots.set i (some (compute i)))
    (List.replicate delegations.length (none : Option String)) with hslots
  have hlen : slots.length = delegations.length := by
    rw [hslots, foldl_set_length, List.length_replicate]
  have hget : ∀ i, i < delegations.length → slots[i]? = some (some (compute i)) := by
    intro i hi
    rw [hslots]
    exact foldl_set_getElem_mem compute schedule _ i
      (by simpa [List.length_replicate] using hi) (hcover i hi)
  have hall : slots.all (fun o => o.isSome) = true := by
    rw [List.all_eq_true]
    intro o ho
    obtain ⟨i, hoi⟩ := List.mem_iff_getElem?.mp ho
    have hi : i < delegations.length := by
      by_contra hge
      have hge2 : slots.length ≤ i := by rw [hlen]; exact le_of_not_lt hge
      rw [List.getElem?_eq_none hge2] at hoi
      exact Option.noConfusion hoi
    rw [hget i hi] at hoi
    cases hoi
    rfl
  rw [if_pos hall]
  congr 1
  apply List.ext_getElem?
  intro i
  rw [List.getElem?_map, List.getElem?_map]
  by_cases hi : i < delegations.length
  · rw [hget i hi, List.getElem?_eq_getElem hi, hcompute]
    simp [List.getElem?_eq_getElem hi]
  · have h1 : slots.length ≤ i := by rw [hlen]; exact le_of_not_lt hi
    have h2 : delegations.length ≤ i := le_of_not_lt hi
    rw [List.getElem?_eq_none h1, List.getElem?_eq_none h2]
    rfl

/-- The delegate used in the C9 witness: role `design` resolves to
`A_result`, role `assets` to `B_result`. -/
def delegateW : String → String → String := fun role _ =>
  if role == "design" then "A_result" else "B_result"

/-- Witness for C9: two delegations submitted as A then B, completing in the
order B then A (schedule `[1, 0]`), still yield `[A_result, B_result]`. -/
theorem delegateParallel_preserves_order_witness :
    delegateParallel delegateW
        [("design", "Create game concept"), ("assets", "Generate assets")] [1, 0] =
      some ["A_result", "B_result"] := by
  rw [delegateParallel_preserves_order delegateW
    [("design", "Create game concept"), ("assets", "Generate assets")] [1, 0]
    (by decide)]
  rfl

end AgenticCrew
